import Mathlib

/-
  Verification of `app/icon_pipeline/advanced_icon_generator.py`
  (class `AdvancedIconGenerator`) against its natural-language specification.

  Shallow embedding conventions:
  * Python ints are unbounded, modelled by `ℤ` (naturals cast where convenient).
  * Python machine floats are modelled by exact rationals `ℚ`; the trig
    functions and `math.pi`, and the raw draws of the (seeded) Mersenne
    Twister behind the `random` module, are abstract parameters collected in
    a `PyEnv`.  Every theorem below is insensitive to the concrete choice.
  * PIL's `ImageDraw` mutates the canvas by appending paint operations; the
    canvas is modelled as the list of operations in paint order (`DrawOp`),
    and the whole-image filters of `apply_visual_effects` / `resize` as
    constructors wrapping the canvas (`Img`).  Two renders are byte-identical
    iff the resulting `Img` values are equal, since rasterization of a fixed
    operation list by PIL is deterministic.
  * Fallible Python code (raising exceptions) returns `Option` / `Except`.
-/

namespace IconGen

/-- An RGB triple, channels as Python ints. -/
abbrev RGB : Type := ℤ × ℤ × ℤ

/-- The palette: the dict returned by `generate_color_palette`, as an
association list in the insertion order of the Python dict literal. -/
abbrev Pal : Type := List (String × RGB)

/-- Dict access `colors[key]` (all accesses in the source use keys that are
present, so the default is never reached). -/
def palGet (colors : Pal) (key : String) : RGB :=
  (colors.lookup key).getD (0, 0, 0)

/-- Ambient numeric environment: `math.cos`, `math.sin`, `math.pi` and the
raw unit-interval draws of the seeded pseudo-random stream (indexed by the
seed of the last `random.seed` call and the number of draws consumed since).
These are abstracted because machine floats and the Mersenne Twister are not
shallowly embeddable bit-for-bit; no claim below depends on their values. -/
structure PyEnv where
  cos : ℚ → ℚ
  sin : ℚ → ℚ
  pi : ℚ
  rand : ℤ → ℕ → ℚ

/-- The global state of Python's `random` module: the seed installed by the
last `random.seed` call together with the number of draws consumed since. -/
abbrev RNG : Type := ℤ × ℕ

/-- `random.uniform(a, b)` = `a + random() * (b - a)`, consuming one raw draw
from the shared global stream. -/
def uniform (env : PyEnv) (g : RNG) (a b : ℚ) : ℚ × RNG :=
  (a + env.rand g.1 g.2 * (b - a), (g.1, g.2 + 1))

/-- Python `int(x)` on a float: truncation toward zero. -/
def pyInt (q : ℚ) : ℤ :=
  if 0 ≤ q then ⌊q⌋ else -⌊-q⌋

/-- Python `range(start, stop, step)` as a list of ints. -/
def pyRange (start stop step : ℤ) : List ℤ :=
  if 0 < step then
    (List.range (Int.toNat ((stop - start + step - 1).ediv step))).map
      (fun k => start + step * (k : ℤ))
  else if step < 0 then
    (List.range (Int.toNat ((start - stop - step - 1).ediv (-step)))).map
      (fun k => start + step * (k : ℤ))
  else []

/-- Value of a single hexadecimal digit character, by code point
(`0`-`9`, `a`-`f`, `A`-`F`). -/
def hexDigVal? (c : Char) : Option ℕ :=
  if 48 ≤ c.toNat ∧ c.toNat ≤ 57 then some (c.toNat - 48)
  else if 97 ≤ c.toNat ∧ c.toNat ≤ 102 then some (c.toNat - 87)
  else if 65 ≤ c.toNat ∧ c.toNat ≤ 70 then some (c.toNat - 55)
  else none

/-- Magnitude of `int(s, 16)` on a nonempty all-hex-digit string. -/
def pyIntHexVal? (cs : List Char) : Option ℕ :=
  match cs with
  | [] => none
  | _ =>
    cs.foldl
      (fun acc c =>
        match acc, hexDigVal? c with
        | some a, some v => some (16 * a + v)
        | _, _ => none)
      (some 0)

/-- Python `int(s, 16)`: optional surrounding whitespace, an optional sign,
then a nonempty run of hex digits; anything else raises `ValueError`
(modelled as `none`).  Digit grouping with underscores is not modelled: the
source only ever parses slices of length at most two, where an underscore is
rejected by Python as well. -/
def pyIntHex? (cs : List Char) : Option ℤ :=
  let t := ((cs.dropWhile Char.isWhitespace).reverse.dropWhile Char.isWhitespace).reverse
  if t.head? = some '-' then (pyIntHexVal? t.tail).map (fun n => -(n : ℤ))
  else if t.head? = some '+' then (pyIntHexVal? t.tail).map (fun n => (n : ℤ))
  else (pyIntHexVal? t).map (fun n => (n : ℤ))

/-- Python slice `cs[i:j]` (character list view). -/
def pySlice (cs : List Char) (i j : ℕ) : List Char :=
  (cs.drop i).take (j - i)

/-- `hex_to_rgb` (nested in `generate_color_palette`):
`hex_color.lstrip('#')`, then `int(hex_color[i:i+2], 16) for i in (0, 2, 4)`.
A `ValueError` from any slice is `none`. -/
def hex_to_rgb (s : String) : Option RGB := do
  let cs := s.toList.dropWhile (fun c => c = '#')
  let r ← pyIntHex? (pySlice cs 0 2)
  let g ← pyIntHex? (pySlice cs 2 4)
  let b ← pyIntHex? (pySlice cs 4 6)
  some (r, g, b)

/-- `adjust_brightness`: per channel `max(0, min(255, int(c * factor)))`. -/
def adjust_brightness (c : RGB) (factor : ℚ) : RGB :=
  (max 0 (min 255 (pyInt ((c.1 : ℚ) * factor))),
   max 0 (min 255 (pyInt ((c.2.1 : ℚ) * factor))),
   max 0 (min 255 (pyInt ((c.2.2 : ℚ) * factor))))

/-- `blend_colors`: per channel `int(c1 * (1-ratio) + c2 * ratio)`. -/
def blend_colors (c1 c2 : RGB) ( ratio : ℚ) : RGB :=
  (pyInt ((c1.1 : ℚ) * (1 - ratio) + (c2.1 : ℚ) * ratio),
   pyInt ((c1.2.1 : ℚ) * (1 - ratio) + (c2.2.1 : ℚ) * ratio),
   pyInt ((c1.2.2 : ℚ) * (1 - ratio) + (c2.2.2 : ℚ) * ratio))

/-- The `seasonal_adjustments` dict: season ↦ (brightness, saturation). -/
def seasonal_adjustments : List (String × (ℚ × ℚ)) :=
  [("spring", (1.1, 1.15)), ("summer", (1.2, 1.1)),
   ("autumn", (0.9, 1.2)), ("winter", (0.85, 0.9))]

/-- `generate_color_palette(primary, secondary, season)`: parses both hex
colors (a `ValueError` propagates, modelled as `none`) and returns the
8-entry palette dict in its literal order. -/
def generate_color_palette (primary secondary season : String) : Option Pal := do
  let primary_rgb ← hex_to_rgb primary
  let secondary_rgb ← hex_to_rgb secondary
  let adjustment := (seasonal_adjustments.lookup season).getD (1.0, 1.0)
  some [("primary", primary_rgb),
        ("secondary", secondary_rgb),
        ("accent", blend_colors primary_rgb secondary_rgb 0.3),
        ("light", adjust_brightness primary_rgb adjustment.1),
        ("dark", adjust_brightness primary_rgb 0.7),
        ("highlight", adjust_brightness secondary_rgb 1.3),
        ("shadow", (50, 50, 50)),
        ("background", (240, 240, 245))]

/-- A string that denotes a color as exactly six hexadecimal digits
(after stripping leading `#`), the format the spec calls a valid hex color. -/
def validHexColor (s : String) : Bool :=
  let t := s.toList.dropWhile (fun c => c = '#')
  t.length == 6 && t.all (fun c => (hexDigVal? c).isSome)

/-- All channels of an RGB triple lie in `[0, 255]`. -/
def chanOK (c : RGB) : Prop :=
  0 ≤ c.1 ∧ c.1 ≤ 255 ∧ 0 ≤ c.2.1 ∧ c.2.1 ≤ 255 ∧ 0 ≤ c.2.2 ∧ c.2.2 ≤ 255

instance (c : RGB) : Decidable (chanOK c) := by unfold chanOK; infer_instance

/-- One paint operation of PIL's `ImageDraw` in the order issued: a filled
ellipse given its bounding box, an outlined ellipse, a filled polygon, or a
stroked (poly)line.  Fill/outline colors are the tuples passed in the source:
3 channels, or 4 when an explicit alpha is appended. -/
inductive DrawOp : Type
  | ellipse (x0 y0 x1 y1 : ℚ) (fill : List ℤ)
  | ellipseOutline (x0 y0 x1 y1 : ℚ) (outline : List ℤ) (width : ℤ)
  | polygon (points : List (ℚ × ℚ)) (fill : List ℤ)
  | line (points : List (ℚ × ℚ)) (fill : List ℤ) (width : ℤ)
  deriving DecidableEq

/-- An RGB triple as the color tuple handed to a draw call. -/
def rgbFill (c : RGB) : List ℤ := [c.1, c.2.1, c.2.2]

/-- PIL resampling filters used by the source. -/
inductive Resample : Type
  | lanczos
  deriving DecidableEq

/-- A PIL image as built by the pipeline: the base RGBA canvas
(`Image.new('RGBA', (w, h), color)`) carrying its paint operations in order,
wrapped by the whole-image filters of `apply_visual_effects` and by
`Image.resize`.  Equality of `Img` values models byte-identical rasters. -/
inductive Img : Type
  | base (width height : ℤ) (color : List ℤ) (ops : List DrawOp)
  | sharpen (i : Img)
  | gaussianBlur (radius : ℚ) (i : Img)
  | contrast (factor : ℚ) (i : Img)
  | colorEnhance (factor : ℚ) (i : Img)
  | resize (width height : ℤ) (resample : Resample) (i : Img)
  deriving DecidableEq

/-- The paint operations of the underlying canvas of an image. -/
def Img.opsOf : Img → List DrawOp
  | .base _ _ _ ops => ops
  | .sharpen i => i.opsOf
  | .gaussianBlur _ i => i.opsOf
  | .contrast _ i => i.opsOf
  | .colorEnhance _ i => i.opsOf
  | .resize _ _ _ i => i.opsOf

/-- `draw_geometric_background` (lines 141-163): three hexagonal rings of
six hexagons each at decreasing alpha. -/
def draw_geometric_background (env : PyEnv) (size : ℤ) (colors : Pal) : List DrawOp :=
  let center := Int.fdiv size 2
  (List.range 3).flatMap (fun ring =>
    let radius := (center : ℚ) * 0.3 + (ring : ℚ) * 40
    (List.range 6).map (fun i =>
      let angle := (i : ℚ) * env.pi / 3
      let x := (center : ℚ) + radius * env.cos angle
      let y := (center : ℚ) + radius * env.sin angle
      let hex_size := (20 : ℚ) - (ring : ℚ) * 3
      let points := (List.range 6).map (fun j =>
        let hex_angle := (j : ℚ) * env.pi / 3
        (x + hex_size * env.cos hex_angle, y + hex_size * env.sin hex_angle))
      let alpha := max 20 (80 - (ring : ℤ) * 20)
      DrawOp.polygon points (rgbFill (palGet colors "accent") ++ [alpha])))

/-- `draw_abstract_background` (lines 165-187): five noise-perturbed organic
polygons, each vertex consuming one `random.uniform(0.7, 1.3)` draw. -/
def draw_abstract_background (env : PyEnv) (size : ℤ) (colors : Pal) (g : RNG) :
    List DrawOp × RNG :=
  let center := Int.fdiv size 2
  (List.range 5).foldl
    (fun acc (i : ℕ) =>
      let num_points : ℕ := 8
      let base_radius := (center : ℚ) * (0.6 + (i : ℚ) * 0.1)
      let built := (List.range num_points).foldl
        (fun (pacc : List (ℚ × ℚ) × RNG) (j : ℕ) =>
          let angle := ((j : ℚ) / (num_points : ℚ)) * 2 * env.pi
          let noise := uniform env pacc.2 0.7 1.3
          let radius := base_radius * noise.1
          (pacc.1 ++ [((center : ℚ) + radius * env.cos angle,
                       (center : ℚ) + radius * env.sin angle)], noise.2))
        ([], acc.2)
      let alpha := max 10 (60 - (i : ℤ) * 10)
      (acc.1 ++ [DrawOp.polygon built.1 (rgbFill (palGet colors "secondary") ++ [alpha])],
       built.2))
    ([], g)

/-- The style dispatch of `draw_background` (lines 125-136): geometric /
abstract / default gradient circle.  Factored out of `draw_background` so
that the seasonal call appended there stays visible. -/
def draw_background_style (env : PyEnv) (size : ℤ) (style : String) (colors : Pal)
    (g : RNG) : List DrawOp × RNG :=
  let center := Int.fdiv size 2
  if style = "geometric" then (draw_geometric_background env size colors, g)
  else if style = "abstract" then draw_abstract_background env size colors g
  else
    ((pyRange center 0 (-5)).map (fun i =>
      let alpha := pyInt (255 * (1 - (i : ℚ) / (center : ℚ)) * 0.1)
      DrawOp.ellipse ((center : ℚ) - (i : ℚ)) ((center : ℚ) - (i : ℚ))
        ((center : ℚ) + (i : ℚ)) ((center : ℚ) + (i : ℚ))
        (rgbFill (palGet colors "primary") ++ [alpha])), g)

/-- The `mood_adjustments` dict of `draw_face`: mood ↦ (scale, y_offset). -/
def mood_adjustments : List (String × (ℚ × ℤ)) :=
  [("confident", (1.05, -5)), ("calm", (0.95, 0)), ("focused", (1.0, -3)),
   ("creative", (1.03, -2)), ("determined", (1.08, -8))]

/-- `draw_face` (lines 189-220): soft gradient ring then the solid face
ellipse, with mood-adjusted radius and vertical offset. -/
def draw_face (size : ℤ) (colors : Pal) (mood : String) : List DrawOp :=
  let center := Int.fdiv size 2
  let face_radius := (size : ℚ) * 0.35
  let adj := (mood_adjustments.lookup mood).getD (1.0, 0)
  let adjusted_radius := face_radius * adj.1
  let y_center := center + adj.2
  ((pyRange (pyInt adjusted_radius) 0 (-2)).map (fun i =>
    let alpha := pyInt (255 * (1 - (i : ℚ) / adjusted_radius) * 0.3)
    DrawOp.ellipse ((center : ℚ) - (i : ℚ)) ((y_center : ℚ) - (i : ℚ))
      ((center : ℚ) + (i : ℚ)) ((y_center : ℚ) + (i : ℚ))
      (rgbFill (palGet colors "light") ++ [255 - alpha])))
  ++ [DrawOp.ellipse ((center : ℚ) - adjusted_radius) ((y_center : ℚ) - adjusted_radius)
        ((center : ℚ) + adjusted_radius) ((y_center : ℚ) + adjusted_radius)
        (rgbFill (palGet colors "primary"))]

/-- `draw_hair_classic` (lines 242-248). -/
def draw_hair_classic (env : PyEnv) (size center : ℤ) (hair_color : RGB) (colors : Pal)
    (g : RNG) : List DrawOp × RNG :=
  let hair_radius := (size : ℚ) * 0.4
  ([DrawOp.ellipse ((center : ℚ) - hair_radius) ((center : ℚ) * 0.4 - hair_radius * 0.8)
      ((center : ℚ) + hair_radius) ((center : ℚ) * 0.4 + hair_radius * 0.8)
      (rgbFill hair_color)], g)

/-- `draw_hair_pixie` (lines 250-260): 20 random small circles, each
consuming three uniform draws (angle, distance, radius). -/
def draw_hair_pixie (env : PyEnv) (size center : ℤ) (hair_color : RGB) (colors : Pal)
    (g : RNG) : List DrawOp × RNG :=
  (List.range 20).foldl
    (fun acc _ =>
      let a := uniform env acc.2 0 (2 * env.pi)
      let d := uniform env a.2 ((size : ℚ) * 0.25) ((size : ℚ) * 0.35)
      let x := (center : ℚ) + d.1 * env.cos a.1
      let y := (center : ℚ) * 0.6 + d.1 * env.sin a.1 * 0.7
      let r := uniform env d.2 8 15
      (acc.1 ++ [DrawOp.ellipse (x - r.1) (y - r.1) (x + r.1) (y + r.1)
        (rgbFill hair_color)], r.2))
    ([], g)

/-- `draw_hair_bob` (lines 262-279): structured polygon plus three
highlight ellipses. -/
def draw_hair_bob (env : PyEnv) (size center : ℤ) (hair_color : RGB) (colors : Pal)
    (g : RNG) : List DrawOp × RNG :=
  let points := (pyRange (-4) 5 1).map (fun i =>
    let angle := env.pi * (i : ℚ) / 8
    let radius := (size : ℚ) * 0.38
    ((center : ℚ) + radius * env.cos (angle + env.pi / 2),
     (center : ℚ) * 0.5 + radius * env.sin (angle + env.pi / 2) * 0.8))
  let highlight_color := palGet colors "highlight"
  ([DrawOp.polygon points (rgbFill hair_color)]
   ++ (List.range 3).map (fun i =>
        let x := (center : ℚ) - (size : ℚ) * 0.2 + (i : ℚ) * (size : ℚ) * 0.2
        let y := (center : ℚ) * 0.4
        DrawOp.ellipse (x - 10) (y - 5) (x + 10) (y + 5) (rgbFill highlight_color)),
   g)

/-- `draw_hair_curly` (lines 281-296): five curl positions, three concentric
circles each at decreasing alpha (the length-3 check on the color tuple is
kept from the source). -/
def draw_hair_curly (env : PyEnv) (size center : ℤ) (hair_color : RGB) (colors : Pal)
    (g : RNG) : List DrawOp × RNG :=
  let curl_positions : List (ℚ × ℚ) :=
    [((center : ℚ) - (size : ℚ) * 0.25, (center : ℚ) * 0.4),
     ((center : ℚ) + (size : ℚ) * 0.25, (center : ℚ) * 0.4),
     ((center : ℚ) - (size : ℚ) * 0.15, (center : ℚ) * 0.3),
     ((center : ℚ) + (size : ℚ) * 0.15, (center : ℚ) * 0.3),
     ((center : ℚ), (center : ℚ) * 0.25)]
  (curl_positions.flatMap (fun p =>
    ([25, 20, 15] : List ℤ).map (fun (radius : ℤ) =>
      let alpha := 255 - (25 - radius) * 8
      let color := if (rgbFill hair_color).length = 3
        then rgbFill hair_color ++ [alpha] else rgbFill hair_color
      DrawOp.ellipse (p.1 - (radius : ℚ)) (p.2 - (radius : ℚ))
        (p.1 + (radius : ℚ)) (p.2 + (radius : ℚ)) color)), g)

/-- `draw_hair_braided` (lines 298-309): the classic base shape plus three
braid lines. -/
def draw_hair_braided (env : PyEnv) (size center : ℤ) (hair_color : RGB) (colors : Pal)
    (g : RNG) : List DrawOp × RNG :=
  let base := draw_hair_classic env size center hair_color colors g
  let braid_color := palGet colors "highlight"
  (base.1 ++ (List.range 3).map (fun (i : ℕ) =>
    let y := (center : ℚ) * 0.5 + (i : ℚ) * 20
    let x1 := center - 30 + ((i : ℤ) % 2) * 20
    let x2 := center + 30 - ((i : ℤ) % 2) * 20
    DrawOp.line [((x1 : ℚ), y), ((x2 : ℚ), y)] (rgbFill braid_color) 3), base.2)

/-- `draw_hair_long` (lines 311-337): extended polygon (longer radius within
60 degrees of the front) plus five wavy highlight strokes. -/
def draw_hair_long (env : PyEnv) (size center : ℤ) (hair_color : RGB) (colors : Pal)
    (g : RNG) : List DrawOp × RNG :=
  let points := (pyRange (-6) 7 1).map (fun i =>
    let angle := env.pi * (i : ℚ) / 12
    let radius := if |angle| < env.pi / 3 then (size : ℚ) * 0.45 else (size : ℚ) * 0.35
    ((center : ℚ) + radius * env.cos (angle + env.pi / 2),
     (center : ℚ) * 0.3 + radius * env.sin (angle + env.pi / 2) * 1.2))
  ([DrawOp.polygon points (rgbFill hair_color)]
   ++ (List.range 5).flatMap (fun i =>
        let wave_y := (center : ℚ) * 0.7 + (i : ℚ) * 15
        let wave_points := (List.range 10).map (fun j =>
          ((center : ℚ) - (size : ℚ) * 0.3 + (j : ℚ) * (size : ℚ) * 0.06,
           wave_y + 10 * env.sin ((j : ℚ) * 0.5 + (i : ℚ))))
        if wave_points.length > 1
        then [DrawOp.line wave_points (rgbFill (palGet colors "highlight")) 2]
        else []), g)

/-- `draw_hair_afro` (lines 339-351): 50 random circles, each consuming three
uniform draws (angle, distance, radius). -/
def draw_hair_afro (env : PyEnv) (size center : ℤ) (hair_color : RGB) (colors : Pal)
    (g : RNG) : List DrawOp × RNG :=
  let afro_radius := (size : ℚ) * 0.45
  (List.range 50).foldl
    (fun acc _ =>
      let a := uniform env acc.2 0 (2 * env.pi)
      let d := uniform env a.2 0 afro_radius
      let x := (center : ℚ) + d.1 * env.cos a.1
      let y := (center : ℚ) * 0.5 + d.1 * env.sin a.1 * 0.9
      let r := uniform env d.2 12 25
      (acc.1 ++ [DrawOp.ellipse (x - r.1) (y - r.1) (x + r.1) (y + r.1)
        (rgbFill hair_color)], r.2))
    ([], g)

/-- `draw_hair_updo` (lines 353-367): the updo ellipse plus three pins. -/
def draw_hair_updo (env : PyEnv) (size center : ℤ) (hair_color : RGB) (colors : Pal)
    (g : RNG) : List DrawOp × RNG :=
  let updo_center_y := (center : ℚ) * 0.35
  let pin_color := palGet colors "accent"
  ([DrawOp.ellipse ((center : ℚ) - (size : ℚ) * 0.25) (updo_center_y - (size : ℚ) * 0.15)
      ((center : ℚ) + (size : ℚ) * 0.25) (updo_center_y + (size : ℚ) * 0.15)
      (rgbFill hair_color)]
   ++ (List.range 3).map (fun i =>
        let x := center - 20 + (i : ℤ) * 20
        DrawOp.ellipse ((x : ℚ) - 3) (updo_center_y - 3) ((x : ℚ) + 3) (updo_center_y + 3)
          (rgbFill pin_color)), g)

/-- `draw_hair_modern` (lines 369-396): two asymmetric polygons plus one
highlight polygon. -/
def draw_hair_modern (env : PyEnv) (size center : ℤ) (hair_color : RGB) (colors : Pal)
    (g : RNG) : List DrawOp × RNG :=
  let left_points : List (ℚ × ℚ) :=
    [((center : ℚ) - (size : ℚ) * 0.4, (center : ℚ) * 0.6),
     ((center : ℚ) - (size : ℚ) * 0.2, (center : ℚ) * 0.3),
     ((center : ℚ), (center : ℚ) * 0.25),
     ((center : ℚ) - (size : ℚ) * 0.3, (center : ℚ) * 0.8)]
  let right_points : List (ℚ × ℚ) :=
    [((center : ℚ), (center : ℚ) * 0.25),
     ((center : ℚ) + (size : ℚ) * 0.3, (center : ℚ) * 0.3),
     ((center : ℚ) + (size : ℚ) * 0.35, (center : ℚ) * 0.7),
     ((center : ℚ) + (size : ℚ) * 0.2, (center : ℚ) * 0.8)]
  let highlight_color := palGet colors "highlight"
  ([DrawOp.polygon left_points (rgbFill hair_color),
    DrawOp.polygon right_points (rgbFill hair_color),
    DrawOp.polygon
      [((center : ℚ) - (size : ℚ) * 0.1, (center : ℚ) * 0.3),
       ((center : ℚ) + (size : ℚ) * 0.1, (center : ℚ) * 0.25),
       ((center : ℚ) + (size : ℚ) * 0.15, (center : ℚ) * 0.4),
       ((center : ℚ) - (size : ℚ) * 0.05, (center : ℚ) * 0.45)]
      (rgbFill highlight_color)], g)

/-- The `hair_styles` dict of `draw_hair` (lines 227-237). -/
def hair_styles :
    List (ℤ × (PyEnv → ℤ → ℤ → RGB → Pal → RNG → List DrawOp × RNG)) :=
  [(0, draw_hair_classic), (1, draw_hair_pixie), (2, draw_hair_bob),
   (3, draw_hair_curly), (4, draw_hair_braided), (5, draw_hair_long),
   (6, draw_hair_afro), (7, draw_hair_updo), (8, draw_hair_modern)]

/-- `draw_hair` (lines 222-240): `hair_styles.get(hair_style,
draw_hair_classic)` dispatch. -/
def draw_hair (env : PyEnv) (size hair_style : ℤ) (colors : Pal) (g : RNG) :
    List DrawOp × RNG :=
  let center := Int.fdiv size 2
  let hair_color := palGet colors "dark"
  let hair_function := (hair_styles.lookup hair_style).getD draw_hair_classic
  hair_function env size center hair_color colors g

/-- `draw_eyes_round` (lines 421-434). -/
def draw_eyes_round (left_x right_x y : ℚ) (eye_color highlight_color : RGB)
    (mood : String) : List DrawOp :=
  let radius : ℚ := 12
  let highlight_radius : ℚ := 4
  [DrawOp.ellipse (left_x - radius) (y - radius) (left_x + radius) (y + radius)
     (rgbFill eye_color),
   DrawOp.ellipse (right_x - radius) (y - radius) (right_x + radius) (y + radius)
     (rgbFill eye_color),
   DrawOp.ellipse (left_x - highlight_radius) (y - 6 - highlight_radius)
     (left_x + highlight_radius) (y - 6 + highlight_radius) (rgbFill highlight_color),
   DrawOp.ellipse (right_x - highlight_radius) (y - 6 - highlight_radius)
     (right_x + highlight_radius) (y - 6 + highlight_radius) (rgbFill highlight_color)]

/-- `draw_eyes_almond` (lines 436-449). -/
def draw_eyes_almond (left_x right_x y : ℚ) (eye_color highlight_color : RGB)
    (mood : String) : List DrawOp :=
  let left_points := [(left_x - 15, y), (left_x - 5, y - 8), (left_x + 5, y - 8),
    (left_x + 15, y), (left_x + 5, y + 8), (left_x - 5, y + 8)]
  let right_points := [(right_x - 15, y), (right_x - 5, y - 8), (right_x + 5, y - 8),
    (right_x + 15, y), (right_x + 5, y + 8), (right_x - 5, y + 8)]
  [DrawOp.polygon left_points (rgbFill eye_color),
   DrawOp.polygon right_points (rgbFill eye_color),
   DrawOp.ellipse (left_x - 3) (y - 5) (left_x + 3) (y - 2) (rgbFill highlight_color),
   DrawOp.ellipse (right_x - 3) (y - 5) (right_x + 3) (y - 2) (rgbFill highlight_color)]

/-- `draw_eyes_wide` (lines 451-461). -/
def draw_eyes_wide (left_x right_x y : ℚ) (eye_color highlight_color : RGB)
    (mood : String) : List DrawOp :=
  let width : ℚ := 20
  let height : ℚ := 8
  [DrawOp.ellipse (left_x - width) (y - height) (left_x + width) (y + height)
     (rgbFill eye_color),
   DrawOp.ellipse (right_x - width) (y - height) (right_x + width) (y + height)
     (rgbFill eye_color),
   DrawOp.ellipse (left_x - 6) (y - 4) (left_x + 6) (y + 2) (rgbFill highlight_color),
   DrawOp.ellipse (right_x - 6) (y - 4) (right_x + 6) (y + 2) (rgbFill highlight_color)]

/-- `draw_eyes_focused` (lines 463-474). -/
def draw_eyes_focused (left_x right_x y : ℚ) (eye_color highlight_color : RGB)
    (mood : String) : List DrawOp :=
  let points_left := [(left_x - 12, y - 5), (left_x + 12, y - 8),
    (left_x + 12, y + 8), (left_x - 12, y + 5)]
  let points_right := [(right_x - 12, y - 8), (right_x + 12, y - 5),
    (right_x + 12, y + 5), (right_x - 12, y + 8)]
  [DrawOp.polygon points_left (rgbFill eye_color),
   DrawOp.polygon points_right (rgbFill eye_color),
   DrawOp.ellipse (left_x - 2) (y - 3) (left_x + 2) (y - 1) (rgbFill highlight_color),
   DrawOp.ellipse (right_x - 2) (y - 3) (right_x + 2) (y - 1) (rgbFill highlight_color)]

/-- `draw_eyes_artistic` (lines 476-489). -/
def draw_eyes_artistic (left_x right_x y : ℚ) (eye_color highlight_color : RGB)
    (mood : String) : List DrawOp :=
  let left_points := [(left_x - 10, y), (left_x - 5, y - 12), (left_x + 8, y - 5),
    (left_x + 8, y + 5), (left_x - 5, y + 8)]
  let right_points := [(right_x - 8, y - 8), (right_x + 10, y - 6),
    (right_x + 12, y + 2), (right_x - 6, y + 8)]
  [DrawOp.polygon left_points (rgbFill eye_color),
   DrawOp.polygon right_points (rgbFill eye_color),
   DrawOp.ellipse (left_x - 1) (y - 6) (left_x + 3) (y - 2) (rgbFill highlight_color),
   DrawOp.polygon [(right_x - 2, y - 4), (right_x + 4, y - 3), (right_x + 2, y + 1)]
     (rgbFill highlight_color)]

/-- The `eye_styles` dict of `draw_eyes` (lines 410-416). -/
def eye_styles : List (ℤ × (ℚ → ℚ → ℚ → RGB → RGB → String → List DrawOp)) :=
  [(0, draw_eyes_round), (1, draw_eyes_almond), (2, draw_eyes_wide),
   (3, draw_eyes_focused), (4, draw_eyes_artistic)]

/-- `draw_eyes` (lines 398-419): `eye_styles.get(eye_style, draw_eyes_round)`
dispatch around a fixed eye line. -/
def draw_eyes (size eye_style : ℤ) (colors : Pal) (mood : String) : List DrawOp :=
  let center := Int.fdiv size 2
  let eye_y := (center : ℚ) * 0.85
  let eye_distance := (size : ℚ) * 0.15
  let left_eye_x := (center : ℚ) - eye_distance
  let right_eye_x := (center : ℚ) + eye_distance
  let eye_color := palGet colors "dark"
  let highlight_color : RGB := (255, 255, 255)
  let eye_function := (eye_styles.lookup eye_style).getD draw_eyes_round
  eye_function left_eye_x right_eye_x eye_y eye_color highlight_color mood

/-- The `mood_mouths` dict of `draw_mouth` (lines 498-504), built around the
given center and mouth line. -/
def mood_mouths (center : ℤ) (mouth_y : ℚ) : List (String × List (ℚ × ℚ)) :=
  [("confident", [((center : ℚ) - 15, mouth_y), ((center : ℚ), mouth_y + 8),
      ((center : ℚ) + 15, mouth_y)]),
   ("calm", [((center : ℚ) - 12, mouth_y), ((center : ℚ), mouth_y + 4),
      ((center : ℚ) + 12, mouth_y)]),
   ("focused", [((center : ℚ) - 10, mouth_y), ((center : ℚ) + 10, mouth_y)]),
   ("creative", [((center : ℚ) - 20, mouth_y), ((center : ℚ) - 5, mouth_y + 10),
      ((center : ℚ) + 5, mouth_y - 2), ((center : ℚ) + 20, mouth_y + 5)]),
   ("determined", [((center : ℚ) - 18, mouth_y - 2), ((center : ℚ), mouth_y + 6),
      ((center : ℚ) + 18, mouth_y - 2)])]

/-- The point list `mood_mouths.get(mood, mood_mouths['confident'])` selected
by `draw_mouth` for a mood. -/
def mouth_points (size : ℤ) (mood : String) : List (ℚ × ℚ) :=
  let center := Int.fdiv size 2
  let mouth_y := (center : ℚ) * 1.2
  ((mood_mouths center mouth_y).lookup mood).getD
    (((mood_mouths center mouth_y).lookup "confident").getD [])

/-- `draw_mouth` (lines 491-516): 2 points ⇒ stroked line of width 3;
3 points ⇒ filled polygon; otherwise (4 points) ⇒ stroked polyline of
width 2. -/
def draw_mouth (size : ℤ) (colors : Pal) (mood : String) : List DrawOp :=
  let mouth_color := palGet colors "accent"
  let pts := mouth_points size mood
  if pts.length = 2 then [DrawOp.line pts (rgbFill mouth_color) 3]
  else if pts.length = 3 then [DrawOp.polygon pts (rgbFill mouth_color)]
  else [DrawOp.line pts (rgbFill mouth_color) 2]

/-- `draw_glasses` (lines 531-549). -/
def draw_glasses (center size : ℤ) (colors : Pal) : List DrawOp :=
  let glass_color := palGet colors "dark"
  let eye_y := (center : ℚ) * 0.85
  let eye_distance := (size : ℚ) * 0.15
  let radius : ℚ := 18
  [DrawOp.ellipseOutline ((center : ℚ) - eye_distance - radius) (eye_y - radius)
     ((center : ℚ) - eye_distance + radius) (eye_y + radius) (rgbFill glass_color) 3,
   DrawOp.ellipseOutline ((center : ℚ) + eye_distance - radius) (eye_y - radius)
     ((center : ℚ) + eye_distance + radius) (eye_y + radius) (rgbFill glass_color) 3,
   DrawOp.line [((center : ℚ) - eye_distance + radius, eye_y),
     ((center : ℚ) + eye_distance - radius, eye_y)] (rgbFill glass_color) 2]

/-- `draw_earrings` (lines 551-561). -/
def draw_earrings (center size : ℤ) (colors : Pal) : List DrawOp :=
  let earring_color := palGet colors "accent"
  let ear_y := (center : ℚ) * 1.0
  let ear_distance := (size : ℚ) * 0.25
  [DrawOp.ellipse ((center : ℚ) - ear_distance - 4) (ear_y - 4)
     ((center : ℚ) - ear_distance + 4) (ear_y + 4) (rgbFill earring_color),
   DrawOp.ellipse ((center : ℚ) + ear_distance - 4) (ear_y - 4)
     ((center : ℚ) + ear_distance + 4) (ear_y + 4) (rgbFill earring_color)]

/-- `draw_necklace` (lines 563-575): eleven chain dots plus the pendant. -/
def draw_necklace (center size : ℤ) (colors : Pal) : List DrawOp :=
  let necklace_color := palGet colors "accent"
  let necklace_y := (center : ℚ) * 1.45
  ((pyRange (-5) 6 1).map (fun i =>
    let x := center + i * 8
    let y := necklace_y + (|i| : ℤ) * 2
    DrawOp.ellipse ((x : ℚ) - 2) (y - 2) ((x : ℚ) + 2) (y + 2) (rgbFill necklace_color)))
  ++ [DrawOp.ellipse ((center : ℚ) - 6) (necklace_y + 10 - 6)
        ((center : ℚ) + 6) (necklace_y + 10 + 6) (rgbFill necklace_color)]

/-- `draw_accessories` (lines 518-529): glasses, earrings, necklace drawn by
independent membership tests on the accessory list. -/
def draw_accessories (size : ℤ) (accessories : List String) (colors : Pal) :
    List DrawOp :=
  let center := Int.fdiv size 2
  (if accessories.contains "glasses" then draw_glasses center size colors else [])
  ++ (if accessories.contains "earrings" then draw_earrings center size colors else [])
  ++ (if accessories.contains "necklace" then draw_necklace center size colors else [])

/-- `add_spring_elements` (lines 591-606): flower clusters in three corners. -/
def add_spring_elements (env : PyEnv) (size : ℤ) (colors : Pal) : List DrawOp :=
  let positions : List (ℚ × ℚ) :=
    [((size : ℚ) * 0.1, (size : ℚ) * 0.1), ((size : ℚ) * 0.9, (size : ℚ) * 0.1),
     ((size : ℚ) * 0.9, (size : ℚ) * 0.9)]
  positions.flatMap (fun p =>
    let petals : ℕ := 5
    ((List.range petals).map (fun i =>
      let angle := ((i : ℚ) / (petals : ℚ)) * 2 * env.pi
      let px := p.1 + 8 * env.cos angle
      let py := p.2 + 8 * env.sin angle
      DrawOp.ellipse (px - 3) (py - 3) (px + 3) (py + 3)
        (rgbFill (palGet colors "highlight"))))
    ++ [DrawOp.ellipse (p.1 - 2) (p.2 - 2) (p.1 + 2) (p.2 + 2)
          (rgbFill (palGet colors "accent"))])

/-- `add_summer_elements` (lines 608-623): eight radiating sun-ray strokes. -/
def add_summer_elements (env : PyEnv) (size : ℤ) (colors : Pal) : List DrawOp :=
  let center := Int.fdiv size 2
  (List.range 8).map (fun i =>
    let angle := ((i : ℚ) / 8) * 2 * env.pi
    let start_radius := (size : ℚ) * 0.45
    let end_radius := (size : ℚ) * 0.48
    DrawOp.line
      [((center : ℚ) + start_radius * env.cos angle,
        (center : ℚ) + start_radius * env.sin angle),
       ((center : ℚ) + end_radius * env.cos angle,
        (center : ℚ) + end_radius * env.sin angle)]
      (rgbFill (palGet colors "highlight")) 2)

/-- `add_autumn_elements` (lines 625-633): three leaf polygons. -/
def add_autumn_elements (env : PyEnv) (size : ℤ) (colors : Pal) : List DrawOp :=
  let leaf_positions : List (ℚ × ℚ) :=
    [((size : ℚ) * 0.2, (size : ℚ) * 0.3), ((size : ℚ) * 0.8, (size : ℚ) * 0.7),
     ((size : ℚ) * 0.1, (size : ℚ) * 0.8)]
  leaf_positions.map (fun p =>
    DrawOp.polygon [(p.1, p.2 - 8), (p.1 + 6, p.2), (p.1, p.2 + 8), (p.1 - 6, p.2)]
      (rgbFill (palGet colors "secondary")))

/-- `add_winter_elements` (lines 635-645): three six-armed snowflakes. -/
def add_winter_elements (env : PyEnv) (size : ℤ) (colors : Pal) : List DrawOp :=
  let flake_positions : List (ℚ × ℚ) :=
    [((size : ℚ) * 0.15, (size : ℚ) * 0.2), ((size : ℚ) * 0.85, (size : ℚ) * 0.3),
     ((size : ℚ) * 0.2, (size : ℚ) * 0.8)]
  flake_positions.flatMap (fun p =>
    [DrawOp.line [(p.1 - 6, p.2), (p.1 + 6, p.2)] (rgbFill (palGet colors "highlight")) 2,
     DrawOp.line [(p.1, p.2 - 6), (p.1, p.2 + 6)] (rgbFill (palGet colors "highlight")) 2,
     DrawOp.line [(p.1 - 4, p.2 - 4), (p.1 + 4, p.2 + 4)]
       (rgbFill (palGet colors "highlight")) 1,
     DrawOp.line [(p.1 - 4, p.2 + 4), (p.1 + 4, p.2 - 4)]
       (rgbFill (palGet colors "highlight")) 1])

/-- The `seasonal_elements` dict of `add_seasonal_elements` (lines 580-585). -/
def seasonal_elements : List (String × (PyEnv → ℤ → Pal → List DrawOp)) :=
  [("spring", add_spring_elements), ("summer", add_summer_elements),
   ("autumn", add_autumn_elements), ("winter", add_winter_elements)]

/-- `add_seasonal_elements` (lines 577-589): season dispatch with silent
no-op for an unrecognized season (`dict.get` without default). -/
def add_seasonal_elements (env : PyEnv) (size : ℤ) (season : String) (colors : Pal) :
    List DrawOp :=
  match seasonal_elements.lookup season with
  | some element_function => element_function env size colors
  | none => []

/-- `draw_background` (lines 120-139): the style-dispatched background
followed by `add_seasonal_elements` — the seasonal decoration is painted
here, as the final part of the background step. -/
def draw_background (env : PyEnv) (size : ℤ) (style : String) (colors : Pal)
    (season : String) (g : RNG) : List DrawOp × RNG :=
  let sb := draw_background_style env size style colors g
  (sb.1 ++ add_seasonal_elements env size season colors, sb.2)

/-- `apply_visual_effects` (lines 647-672): style filter (sharpen / blur /
contrast) then mood filter (saturation up / down). -/
def apply_visual_effects (img : Img) (style mood : String) : Img :=
  let styled :=
    if style = "geometric" then Img.sharpen img
    else if style = "abstract" then Img.gaussianBlur 0.5 img
    else if style = "artistic" then Img.contrast 1.2 img
    else img
  if mood = "creative" then Img.colorEnhance 1.15 styled
  else if mood = "calm" then Img.colorEnhance 0.9 styled
  else styled

/-- Whether a draw operation is a filled polygon. -/
def isFilledPolygon : DrawOp → Bool
  | DrawOp.polygon _ _ => true
  | _ => false

/-- Membership of one of the recognized accessory names in the request's
accessory argument (`None` has no members). -/
def hasAcc (acc : Option (List String)) (k : String) : Bool :=
  (acc.getD []).contains k

/-- Python truthiness of the `accessories` argument (`None` or a list). -/
def pyTruthy : Option (List String) → Bool
  | none => false
  | some l => !l.isEmpty

/-- The accessories step of `generate_procedural_avatar` (lines 75-76):
`if accessories: draw_accessories(...)`. -/
def accessory_ops (size : ℤ) (accessories : Option (List String)) (colors : Pal) :
    List DrawOp :=
  if pyTruthy accessories then draw_accessories size (accessories.getD []) colors
  else []

/-- `generate_procedural_avatar` (lines 44-81).  The incoming `g0` is the
state of the process-wide `random` module before the call; line 59
(`random.seed(seed)`) replaces it before anything else runs.  Returns the
final image together with the final `random` state, or `none` when hex
parsing raises. -/
def generate_procedural_avatar (env : PyEnv) (size : ℤ)
    (style primary_color secondary_color mood season : String)
    (hair_style eye_style : ℤ) (accessories : Option (List String)) (seed : ℤ)
    (g0 : RNG) : Option (Img × RNG) :=
  let g : RNG := (seed, 0)
  (generate_color_palette primary_color secondary_color season).bind (fun colors =>
    let bg := draw_background env size style colors season g
    let faceOps := draw_face size colors mood
    let hair := draw_hair env size hair_style colors bg.2
    let eyeOps := draw_eyes size eye_style colors mood
    let mouthOps := draw_mouth size colors mood
    let accOps := accessory_ops size accessories colors
    let img := Img.base size size [0, 0, 0, 0]
      (bg.1 ++ faceOps ++ hair.1 ++ eyeOps ++ mouthOps ++ accOps)
    some (apply_visual_effects img style mood, hair.2))

/-- `ICON_SIZES` (line 21). -/
def ICON_SIZES : List ℤ := [48, 72, 96, 144, 192, 512]

/-- A value of the configuration dict handed to `generate_icon_set`:
an int, a string, an accessory list, or Python `None`. -/
inductive ConfigVal : Type
  | i (n : ℤ)
  | s (v : String)
  | strs (v : List String)
  | nil
  deriving DecidableEq

/-- String-valued option lookup with the keyword default of
`generate_procedural_avatar`. -/
def getS (cfg : List (String × ConfigVal)) (k d : String) : String :=
  match cfg.lookup k with
  | some (ConfigVal.s v) => v
  | _ => d

/-- Int-valued option lookup with the keyword default. -/
def getI (cfg : List (String × ConfigVal)) (k : String) (d : ℤ) : ℤ :=
  match cfg.lookup k with
  | some (ConfigVal.i n) => n
  | _ => d

/-- Accessory-list option lookup; the keyword default is `None`. -/
def getAcc (cfg : List (String × ConfigVal)) (k : String) : Option (List String) :=
  match cfg.lookup k with
  | some (ConfigVal.strs l) => some l
  | _ => none

/-- The `valid_params` whitelist of `generate_icon_set` (lines 679-682). -/
def valid_params : List String :=
  ["size", "style", "primary_color", "secondary_color", "mood",
   "season", "hair_style", "eye_style", "accessories", "seed"]

/-- The `filtered_config` of `generate_icon_set` (line 683). -/
def filterCfg (config : List (String × ConfigVal)) : List (String × ConfigVal) :=
  config.filter (fun kv => valid_params.contains kv.1)

/-- `generate_icon_set` (lines 674-700): whitelist-filters the config, calls
`generate_procedural_avatar(size=512, **filtered_config)` — which raises a
`TypeError` whenever `filtered_config` still contains `size`, because `size`
is then passed twice — and produces the icon dict over `ICON_SIZES`, the 512
entry being the base avatar itself and every other entry a single LANCZOS
resize taken directly from it. -/
def generate_icon_set (env : PyEnv) (config : List (String × ConfigVal)) (g : RNG) :
    Except String (List (ℤ × Img)) :=
  let filtered_config := filterCfg config
  if filtered_config.any (fun kv => kv.1 == "size") then
    Except.error "TypeError: generate_procedural_avatar got multiple values for keyword argument size"
  else
    match generate_procedural_avatar env 512
      (getS filtered_config "style" "portrait")
      (getS filtered_config "primary_color" "#8b5cf6")
      (getS filtered_config "secondary_color" "#f59e0b")
      (getS filtered_config "mood" "confident")
      (getS filtered_config "season" "summer")
      (getI filtered_config "hair_style" 2)
      (getI filtered_config "eye_style" 1)
      (getAcc filtered_config "accessories")
      (getI filtered_config "seed" 42) g with
    | none => Except.error "ValueError: invalid literal for int with base 16"
    | some (base_avatar, _) =>
      Except.ok (ICON_SIZES.map (fun size =>
        (size, if size = 512 then base_avatar
               else Img.resize size size Resample.lanczos base_avatar)))

/-- A concrete ambient environment used to evaluate closed statements: all
abstract numeric parameters set to zero. -/
def env0 : PyEnv := ⟨fun _ => 0, fun _ => 0, 0, fun _ _ => 0⟩

/-- The palette of the default colors and season, fully evaluated. -/
def pal_default : Pal :=
  [("primary", (139, 92, 246)), ("secondary", (245, 158, 11)),
   ("accent", (170, 111, 175)), ("light", (166, 110, 255)),
   ("dark", (97, 64, 172)), ("highlight", (255, 205, 14)),
   ("shadow", (50, 50, 50)), ("background", (240, 240, 245))]

/-- Modelled from the spec, for comparison with the source's order: §4.2
prescribes the layer order "background → face → hair → eyes → mouth →
accessories (if requested) → seasonal decoration", with the seasonal
decoration painted last over every earlier layer.  This is the operation
list of one render in that order. -/
def spec_order_ops (env : PyEnv) (size : ℤ)
    (style primary_color secondary_color mood season : String)
    (hair_style eye_style : ℤ) (accessories : Option (List String)) (seed : ℤ)
    (g0 : RNG) : Option (List DrawOp) :=
  let g : RNG := (seed, 0)
  (generate_color_palette primary_color secondary_color season).map (fun colors =>
    let bg := draw_background_style env size style colors g
    let faceOps := draw_face size colors mood
    let hair := draw_hair env size hair_style colors bg.2
    let eyeOps := draw_eyes size eye_style colors mood
    let mouthOps := draw_mouth size colors mood
    let accOps := accessory_ops size accessories colors
    bg.1 ++ faceOps ++ hair.1 ++ eyeOps ++ mouthOps ++ accOps
      ++ add_seasonal_elements env size season colors)

/-! ### Helper lemmas -/

/-- Unfolding equation for association-list lookup. -/
theorem lookup_cons {α β : Type} [BEq α] (a k : α) (v : β) (t : List (α × β)) :
    List.lookup a ((k, v) :: t) = if a == k then some v else List.lookup a t := by
  cases h : a == k <;> simp [List.lookup, h]

/-- A successful association-list lookup returns one of the stored values. -/
theorem lookup_mem {α β : Type} [BEq α] {a : α} {v : β} :
    ∀ {l : List (α × β)}, List.lookup a l = some v → v ∈ l.map Prod.snd := by
  intro l
  induction l with
  | nil => intro h; simp [List.lookup] at h
  | cons kv t ih =>
    intro h
    rw [show kv = (kv.1, kv.2) from rfl, lookup_cons] at h
    by_cases hk : a == kv.1
    · simp [hk] at h; simp [h]
    · simp [hk] at h; simpa using Or.inr (ih h)

/-- Bounds carried by a successful hex-digit parse. -/
theorem hexDigVal?_bound {c : Char} {v : ℕ} (h : hexDigVal? c = some v) :
    v ≤ 15 ∧ 48 ≤ c.toNat ∧ c.toNat ≤ 102 := by
  unfold hexDigVal? at h
  split at h
  · simp only [Option.some.injEq] at h; omega
  · split at h
    · simp only [Option.some.injEq] at h; omega
    · split at h
      · simp only [Option.some.injEq] at h; omega
      · exact absurd h (by simp)

/-- A hex digit is not whitespace. -/
theorem hexDig_not_ws {c : Char} {v : ℕ} (h : hexDigVal? c = some v) :
    c.isWhitespace = false := by
  have hb := (hexDigVal?_bound h).2.1
  unfold Char.isWhitespace
  have h1 : ¬(c = ' ') := fun he => by rw [he] at hb; exact absurd hb (by decide)
  have h2 : ¬(c = '\t') := fun he => by rw [he] at hb; exact absurd hb (by decide)
  have h3 : ¬(c = '\x0d') := fun he => by rw [he] at hb; exact absurd hb (by decide)
  have h4 : ¬(c = '\n') := fun he => by rw [he] at hb; exact absurd hb (by decide)
  simp [h1, h2, h3, h4]

/-- A hex digit is not a sign character. -/
theorem hexDig_not_sign {c : Char} {v : ℕ} (h : hexDigVal? c = some v) :
    ¬(c = '-') ∧ ¬(c = '+') := by
  have hb := (hexDigVal?_bound h).2.1
  constructor
  · intro he; rw [he] at hb; exact absurd hb (by decide)
  · intro he; rw [he] at hb; exact absurd hb (by decide)

/-- `int(s, 16)` on a two-hex-digit slice. -/
theorem pyIntHex?_two {a b : Char} {va vb : ℕ}
    (ha : hexDigVal? a = some va) (hb : hexDigVal? b = some vb) :
    pyIntHex? [a, b] = some ((16 * va + vb : ℕ) : ℤ) := by
  have hwa := hexDig_not_ws ha
  have hwb := hexDig_not_ws hb
  have hsa := hexDig_not_sign ha
  unfold pyIntHex?
  simp only [List.dropWhile, hwa, hwb, List.reverse_cons, List.reverse_nil,
    List.nil_append, List.cons_append, List.head?]
  rw [if_neg (by simp [hsa.1]), if_neg (by simp [hsa.2])]
  unfold pyIntHexVal?
  simp only [List.foldl, ha, hb]
  norm_num

/-- `hex_to_rgb` succeeds on every six-hex-digit color string and returns
in-range channels. -/
theorem hex_to_rgb_valid {s : String} (h : validHexColor s = true) :
    ∃ c : RGB, hex_to_rgb s = some c ∧ chanOK c := by
  unfold validHexColor at h
  simp only [Bool.and_eq_true, beq_iff_eq, List.all_eq_true] at h
  obtain ⟨hlen, hall⟩ := h
  set t := s.toList.dropWhile (fun c => c = '#') with ht
  match t, hlen with
  | [c1, c2, c3, c4, c5, c6], _ =>
    have h1 := hall c1 (by simp)
    have h2 := hall c2 (by simp)
    have h3 := hall c3 (by simp)
    have h4 := hall c4 (by simp)
    have h5 := hall c5 (by simp)
    have h6 := hall c6 (by simp)
    rw [Option.isSome_iff_exists] at h1 h2 h3 h4 h5 h6
    obtain ⟨v1, h1⟩ := h1
    obtain ⟨v2, h2⟩ := h2
    obtain ⟨v3, h3⟩ := h3
    obtain ⟨v4, h4⟩ := h4
    obtain ⟨v5, h5⟩ := h5
    obtain ⟨v6, h6⟩ := h6
    have b1 := (hexDigVal?_bound h1).1
    have b2 := (hexDigVal?_bound h2).1
    have b3 := (hexDigVal?_bound h3).1
    have b4 := (hexDigVal?_bound h4).1
    have b5 := (hexDigVal?_bound h5).1
    have b6 := (hexDigVal?_bound h6).1
    refine ⟨((16 * v1 + v2 : ℕ), (16 * v3 + v4 : ℕ), (16 * v5 + v6 : ℕ)), ?_, ?_⟩
    · unfold hex_to_rgb
      rw [← ht]
      dsimp only
      have e1 : pySlice [c1, c2, c3, c4, c5, c6] 0 2 = [c1, c2] := rfl
      have e2 : pySlice [c1, c2, c3, c4, c5, c6] 2 4 = [c3, c4] := rfl
      have e3 : pySlice [c1, c2, c3, c4, c5, c6] 4 6 = [c5, c6] := rfl
      rw [e1, e2, e3, pyIntHex?_two h1 h2, pyIntHex?_two h3 h4, pyIntHex?_two h5 h6]
      rfl
    · unfold chanOK
      refine ⟨by positivity, ?_, by positivity, ?_, by positivity, ?_⟩ <;>
        · push_cast; omega

/-- `pyInt` maps `[0, 255]` into `[0, 255]`. -/
theorem pyInt_bounds {q : ℚ} (h0 : 0 ≤ q) (h255 : q ≤ 255) :
    0 ≤ pyInt q ∧ pyInt q ≤ 255 := by
  unfold pyInt
  rw [if_pos h0]
  constructor
  · exact Int.floor_nonneg.mpr h0
  · calc ⌊q⌋ ≤ ⌊(255 : ℚ)⌋ := Int.floor_le_floor h255
    _ = 255 := by norm_num

/-- One channel of a convex blend of in-range values stays in range. -/
theorem blend_chan_aux {a b r : ℚ} (ha0 : 0 ≤ a) (ha : a ≤ 255) (hb0 : 0 ≤ b)
    (hb : b ≤ 255) (hr0 : 0 ≤ r) (hr1 : r ≤ 1) :
    0 ≤ a * (1 - r) + b * r ∧ a * (1 - r) + b * r ≤ 255 := by
  have h1 : 0 ≤ a * (1 - r) := mul_nonneg ha0 (by linarith)
  have h2 : 0 ≤ b * r := mul_nonneg hb0 hr0
  have h3 : a * (1 - r) ≤ 255 * (1 - r) := mul_le_mul_of_nonneg_right ha (by linarith)
  have h4 : b * r ≤ 255 * r := mul_le_mul_of_nonneg_right hb hr0
  constructor <;> linarith

/-- Blending two in-range colors with a ratio in `[0, 1]` stays in range. -/
theorem blend_chanOK {c1 c2 : RGB} (h1 : chanOK c1) (h2 : chanOK c2)
    {r : ℚ} (hr0 : 0 ≤ r) (hr1 : r ≤ 1) : chanOK (blend_colors c1 c2 r) := by
  obtain ⟨a1, a2, a3, a4, a5, a6⟩ := h1
  obtain ⟨b1, b2, b3, b4, b5, b6⟩ := h2
  have q1 : (0 : ℚ) ≤ (c1.1 : ℚ) := by exact_mod_cast a1
  have q2 : (c1.1 : ℚ) ≤ 255 := by exact_mod_cast a2
  have q3 : (0 : ℚ) ≤ (c1.2.1 : ℚ) := by exact_mod_cast a3
  have q4 : (c1.2.1 : ℚ) ≤ 255 := by exact_mod_cast a4
  have q5 : (0 : ℚ) ≤ (c1.2.2 : ℚ) := by exact_mod_cast a5
  have q6 : (c1.2.2 : ℚ) ≤ 255 := by exact_mod_cast a6
  have w1 : (0 : ℚ) ≤ (c2.1 : ℚ) := by exact_mod_cast b1
  have w2 : (c2.1 : ℚ) ≤ 255 := by exact_mod_cast b2
  have w3 : (0 : ℚ) ≤ (c2.2.1 : ℚ) := by exact_mod_cast b3
  have w4 : (c2.2.1 : ℚ) ≤ 255 := by exact_mod_cast b4
  have w5 : (0 : ℚ) ≤ (c2.2.2 : ℚ) := by exact_mod_cast b5
  have w6 : (c2.2.2 : ℚ) ≤ 255 := by exact_mod_cast b6
  have A1 := blend_chan_aux q1 q2 w1 w2 hr0 hr1
  have A2 := blend_chan_aux q3 q4 w3 w4 hr0 hr1
  have A3 := blend_chan_aux q5 q6 w5 w6 hr0 hr1
  unfold blend_colors chanOK
  dsimp only
  exact ⟨(pyInt_bounds A1.1 A1.2).1, (pyInt_bounds A1.1 A1.2).2,
    (pyInt_bounds A2.1 A2.2).1, (pyInt_bounds A2.1 A2.2).2,
    (pyInt_bounds A3.1 A3.2).1, (pyInt_bounds A3.1 A3.2).2⟩

/-- Brightness adjustment clamps into `[0, 255]` unconditionally. -/
theorem adjust_chanOK (c : RGB) (f : ℚ) : chanOK (adjust_brightness c f) := by
  unfold adjust_brightness chanOK
  dsimp only
  refine ⟨?_, ?_, ?_, ?_, ?_, ?_⟩ <;> omega

/-- The post-processing filters do not change the underlying paint
operations. -/
theorem opsOf_apply_visual_effects (img : Img) (style mood : String) :
    (apply_visual_effects img style mood).opsOf = img.opsOf := by
  unfold apply_visual_effects
  dsimp only
  repeat' split
  all_goals simp [Img.opsOf]

/-- The accessory step depends only on membership of the three recognized
accessory names. -/
theorem accessory_ops_canon (size : ℤ) (acc : Option (List String)) (colors : Pal) :
    accessory_ops size acc colors =
      (if hasAcc acc "glasses" then draw_glasses (Int.fdiv size 2) size colors else [])
      ++ (if hasAcc acc "earrings" then draw_earrings (Int.fdiv size 2) size colors else [])
      ++ (if hasAcc acc "necklace" then draw_necklace (Int.fdiv size 2) size colors else []) := by
  cases acc with
  | none => simp [accessory_ops, hasAcc, pyTruthy]
  | some l =>
    cases l with
    | nil => simp [accessory_ops, hasAcc, pyTruthy]
    | cons x xs => simp [accessory_ops, hasAcc, pyTruthy, draw_accessories]

/-! ### Claim theorems -/

section

attribute [local semireducible] Rat.add Rat.mul Rat.sub Rat.inv Rat.ofScientific

set_option maxRecDepth 100000

/-- C3 (counterexample): on the spec's example inputs
`("#8b5cf6", "#f59e0b", "summer")` the accent entry of the palette is not
`(171, 114, 175)` as the claim states. -/
theorem generate_color_palette_accent_ne_example :
    ¬((generate_color_palette "#8b5cf6" "#f59e0b" "summer").map
        (fun pal => palGet pal "accent") = some ((171 : ℤ), 114, 175)) := by
  decide

/-- C3 (amended): on `("#8b5cf6", "#f59e0b", "summer")` the accent entry is
the per-channel blend of primary `(139,92,246)` and secondary `(245,158,11)`
with ratio `0.3`, namely `(int(170.8), int(111.8), int(175.5)) =
(170, 111, 175)`. -/
theorem generate_color_palette_accent_value :
    (generate_color_palette "#8b5cf6" "#f59e0b" "summer").map
        (fun pal => palGet pal "accent") =
      some (blend_colors (139, 92, 246) (245, 158, 11) 0.3)
    ∧ blend_colors (139, 92, 246) (245, 158, 11) 0.3 = ((170 : ℤ), 111, 175) := by
  exact ⟨by decide, by decide⟩

/-- C5: for every pair of valid six-hex-digit color strings and every season
string (recognized or not), `generate_color_palette` returns a palette with
exactly the 8 keys `primary, secondary, accent, light, dark, highlight,
shadow, background` in order, and every channel of every color lies in
`[0, 255]`. -/
theorem generate_color_palette_invariant (p s sea : String)
    (hp : validHexColor p = true) (hs : validHexColor s = true) :
    ∃ pal, generate_color_palette p s sea = some pal
      ∧ pal.map Prod.fst =
          ["primary", "secondary", "accent", "light", "dark", "highlight",
           "shadow", "background"]
      ∧ ∀ kv ∈ pal, chanOK kv.2 := by
  obtain ⟨c1, hc1, hok1⟩ := hex_to_rgb_valid hp
  obtain ⟨c2, hc2, hok2⟩ := hex_to_rgb_valid hs
  have hpal : generate_color_palette p s sea = some
      [("primary", c1), ("secondary", c2),
       ("accent", blend_colors c1 c2 0.3),
       ("light", adjust_brightness c1
          ((seasonal_adjustments.lookup sea).getD (1.0, 1.0)).1),
       ("dark", adjust_brightness c1 0.7),
       ("highlight", adjust_brightness c2 1.3),
       ("shadow", (50, 50, 50)),
       ("background", (240, 240, 245))] := by
    unfold generate_color_palette
    rw [hc1, hc2]
    rfl
  refine ⟨_, hpal, rfl, ?_⟩
  intro kv hkv
  simp only [List.mem_cons, List.not_mem_nil, or_false] at hkv
  rcases hkv with h | h | h | h | h | h | h | h <;> subst h
  · exact hok1
  · exact hok2
  · exact blend_chanOK hok1 hok2 (by norm_num) (by norm_num)
  · exact adjust_chanOK _ _
  · exact adjust_chanOK _ _
  · exact adjust_chanOK _ _
  · exact (by decide : chanOK ((50 : ℤ), (50 : ℤ), (50 : ℤ)))
  · exact (by decide : chanOK ((240 : ℤ), (240 : ℤ), (245 : ℤ)))

/-- Witness for C5 at the repository's default colors and season. -/
theorem generate_color_palette_invariant_witness :
    validHexColor "#8b5cf6" = true ∧ validHexColor "#f59e0b" = true ∧
    (∃ pal, generate_color_palette "#8b5cf6" "#f59e0b" "summer" = some pal
      ∧ pal.map Prod.fst =
          ["primary", "secondary", "accent", "light", "dark", "highlight",
           "shadow", "background"]
      ∧ ∀ kv ∈ pal, chanOK kv.2) :=
  ⟨by decide, by decide,
   generate_color_palette_invariant "#8b5cf6" "#f59e0b" "summer"
     (by decide) (by decide)⟩

/-- C9 (counterexample): `"#8b5cf"` is not a valid six-hex-digit RGB color,
yet `generate_color_palette` accepts it without error (the third slice
`"f"` parses as a one-digit hex number), refuting "for every string that is
not a valid RGB hex color the call raises an error". -/
theorem generate_color_palette_accepts_invalid :
    validHexColor "#8b5cf" = false ∧
    (generate_color_palette "#8b5cf" "#f59e0b" "summer").isSome = true := by
  exact ⟨by decide, by decide⟩

/-- C9 (amended): `generate_color_palette` fails exactly when hex parsing of
the primary or the secondary string fails (each of the three two-character
slices taken after stripping leading `#` must parse as a hexadecimal
integer), and every valid six-hex-digit color string does parse; but the
set of accepted strings is strictly larger than the valid six-hex-digit
colors. -/
theorem generate_color_palette_failure_modes :
    (∀ p s sea, generate_color_palette p s sea = none ↔
        (hex_to_rgb p = none ∨ hex_to_rgb s = none))
    ∧ (∀ s, validHexColor s = true → (hex_to_rgb s).isSome = true) := by
  constructor
  · intro p s sea
    unfold generate_color_palette
    cases hex_to_rgb p <;> cases hex_to_rgb s <;> simp
  · intro s hv
    obtain ⟨c, hc, _⟩ := hex_to_rgb_valid hv
    simp [hc]

/-- Witness for C9 (amended) at concrete strings. -/
theorem generate_color_palette_failure_modes_witness :
    (generate_color_palette "nothex" "#f59e0b" "summer" = none ↔
      (hex_to_rgb "nothex" = none ∨ hex_to_rgb "#f59e0b" = none))
    ∧ (hex_to_rgb "#8b5cf6").isSome = true :=
  ⟨generate_color_palette_failure_modes.1 "nothex" "#f59e0b" "summer",
   generate_color_palette_failure_modes.2 "#8b5cf6" (by decide)⟩

/-- C1: for every fixed input tuple, `generate_procedural_avatar` is a
deterministic function of its inputs: the pseudo-random generator is seeded
exactly once from the request's seed (line 59) before any randomized drawing
routine runs, so the render does not depend on the incoming state of the
process-wide `random` module, and two calls with the same inputs return
byte-identical canvases. -/
theorem generate_procedural_avatar_deterministic (env : PyEnv) (size : ℤ)
    (style pc sc mood season : String) (hs es : ℤ) (acc : Option (List String))
    (seed : ℤ) (g1 g2 : RNG) :
    generate_procedural_avatar env size style pc sc mood season hs es acc seed g1 =
    generate_procedural_avatar env size style pc sc mood season hs es acc seed g2 := rfl

/-- C8: a hair-style index outside 0-8 renders identically to index 0: the
`hair_styles.get` lookup misses and falls back to `draw_hair_classic`, which
is also the entry at index 0. -/
theorem generate_avatar_hair_fallback (env : PyEnv) (size : ℤ)
    (style pc sc mood season : String) (hs es : ℤ) (acc : Option (List String))
    (seed : ℤ) (g0 : RNG) (hout : hs < 0 ∨ 8 < hs) :
    generate_procedural_avatar env size style pc sc mood season hs es acc seed g0 =
    generate_procedural_avatar env size style pc sc mood season 0 es acc seed g0 := by
  have e0 : (hs == (0 : ℤ)) = false := beq_eq_false_iff_ne.mpr (by omega)
  have e1 : (hs == (1 : ℤ)) = false := beq_eq_false_iff_ne.mpr (by omega)
  have e2 : (hs == (2 : ℤ)) = false := beq_eq_false_iff_ne.mpr (by omega)
  have e3 : (hs == (3 : ℤ)) = false := beq_eq_false_iff_ne.mpr (by omega)
  have e4 : (hs == (4 : ℤ)) = false := beq_eq_false_iff_ne.mpr (by omega)
  have e5 : (hs == (5 : ℤ)) = false := beq_eq_false_iff_ne.mpr (by omega)
  have e6 : (hs == (6 : ℤ)) = false := beq_eq_false_iff_ne.mpr (by omega)
  have e7 : (hs == (7 : ℤ)) = false := beq_eq_false_iff_ne.mpr (by omega)
  have e8 : (hs == (8 : ℤ)) = false := beq_eq_false_iff_ne.mpr (by omega)
  have hnone : hair_styles.lookup hs = Option.none := by
    simp [hair_styles, List.lookup, e0, e1, e2, e3, e4, e5, e6, e7, e8]
  have hdraw : ∀ colors g, draw_hair env size hs colors g = draw_hair env size 0 colors g := by
    intro colors g
    unfold draw_hair
    rw [hnone]
    rfl
  unfold generate_procedural_avatar
  simp only [hdraw]

/-- Witness for C8 at the spec's example index 99. -/
theorem generate_avatar_hair_fallback_witness :
    ((99 : ℤ) < 0 ∨ 8 < (99 : ℤ)) ∧
    generate_procedural_avatar env0 512 "portrait" "#8b5cf6" "#f59e0b" "confident"
        "summer" 99 1 Option.none 42 (0, 0) =
      generate_procedural_avatar env0 512 "portrait" "#8b5cf6" "#f59e0b" "confident"
        "summer" 0 1 Option.none 42 (0, 0) :=
  ⟨by norm_num,
   generate_avatar_hair_fallback env0 512 "portrait" "#8b5cf6" "#f59e0b" "confident"
     "summer" 99 1 Option.none 42 (0, 0) (by norm_num)⟩

/-- C10: only membership of the three recognized accessory names `glasses`,
`earrings`, `necklace` affects the canvas: two requests whose accessory
arguments agree on those three memberships render identically, so a list of
only unrecognized names renders like an empty list. -/
theorem generate_avatar_accessory_membership (env : PyEnv) (size : ℤ)
    (style pc sc mood season : String) (hs es : ℤ) (seed : ℤ) (g0 : RNG)
    (acc1 acc2 : Option (List String))
    (hg : hasAcc acc1 "glasses" = hasAcc acc2 "glasses")
    (he : hasAcc acc1 "earrings" = hasAcc acc2 "earrings")
    (hn : hasAcc acc1 "necklace" = hasAcc acc2 "necklace") :
    generate_procedural_avatar env size style pc sc mood season hs es acc1 seed g0 =
    generate_procedural_avatar env size style pc sc mood season hs es acc2 seed g0 := by
  have h : ∀ colors, accessory_ops size acc1 colors = accessory_ops size acc2 colors := by
    intro colors
    rw [accessory_ops_canon, accessory_ops_canon, hg, he, hn]
  unfold generate_procedural_avatar
  simp only [h]

/-- Witness for C10: `["hat"]` renders identically to `[]`. -/
theorem generate_avatar_accessory_membership_witness :
    hasAcc (some ["hat"]) "glasses" = hasAcc (some []) "glasses" ∧
    hasAcc (some ["hat"]) "earrings" = hasAcc (some []) "earrings" ∧
    hasAcc (some ["hat"]) "necklace" = hasAcc (some []) "necklace" ∧
    generate_procedural_avatar env0 512 "portrait" "#8b5cf6" "#f59e0b" "confident"
        "summer" 2 1 (some ["hat"]) 42 (0, 0) =
      generate_procedural_avatar env0 512 "portrait" "#8b5cf6" "#f59e0b" "confident"
        "summer" 2 1 (some []) 42 (0, 0) :=
  ⟨by decide, by decide, by decide,
   generate_avatar_accessory_membership env0 512 "portrait" "#8b5cf6" "#f59e0b"
     "confident" "summer" 2 1 42 (0, 0) (some ["hat"]) (some [])
     (by decide) (by decide) (by decide)⟩

/-- C2 (counterexample): at a concrete request (style `portrait`, season
`summer`, accessories `["earrings"]`) the painted operation sequence differs
from the spec's claimed order with the seasonal decoration last: the code
paints the seasonal sun rays right after the background fill, before the
face. -/
theorem generate_avatar_spec_order_refuted :
    ¬((generate_procedural_avatar env0 512 "portrait" "#8b5cf6" "#f59e0b" "confident"
        "summer" 2 1 (some ["earrings"]) 42 (0, 0)).map (fun p => p.1.opsOf) =
      spec_order_ops env0 512 "portrait" "#8b5cf6" "#f59e0b" "confident"
        "summer" 2 1 (some ["earrings"]) 42 (0, 0)) := by
  decide

/-- C2 (amended): within one call the paint order is: style-dispatched
background, then the seasonal decoration (painted as the final part of the
background step, lines 138-139), then face, hair, eyes, mouth, and
accessories (when requested) last.  The seasonal decoration is painted
before the face, underneath every later layer — not last. -/
theorem generate_avatar_layer_order (env : PyEnv) (size : ℤ)
    (style pc sc mood season : String) (hs es : ℤ) (acc : Option (List String))
    (seed : ℤ) (g0 : RNG) (colors : Pal)
    (h : generate_color_palette pc sc season = some colors) :
    (generate_procedural_avatar env size style pc sc mood season hs es acc seed g0).map
        (fun p => p.1.opsOf) =
      some ((draw_background_style env size style colors (seed, 0)).1
        ++ add_seasonal_elements env size season colors
        ++ draw_face size colors mood
        ++ (draw_hair env size hs colors
              (draw_background_style env size style colors (seed, 0)).2).1
        ++ draw_eyes size es colors mood
        ++ draw_mouth size colors mood
        ++ accessory_ops size acc colors) := by
  unfold generate_procedural_avatar draw_background
  rw [h]
  simp [opsOf_apply_visual_effects, Img.opsOf, List.append_assoc]

/-- Witness for C2 (amended) at a concrete request. -/
theorem generate_avatar_layer_order_witness :
    generate_color_palette "#8b5cf6" "#f59e0b" "summer" = some pal_default ∧
    (generate_procedural_avatar env0 512 "portrait" "#8b5cf6" "#f59e0b" "confident"
        "summer" 2 1 (some ["earrings"]) 42 (0, 0)).map (fun p => p.1.opsOf) =
      some ((draw_background_style env0 512 "portrait" pal_default (42, 0)).1
        ++ add_seasonal_elements env0 512 "summer" pal_default
        ++ draw_face 512 pal_default "confident"
        ++ (draw_hair env0 512 2 pal_default
              (draw_background_style env0 512 "portrait" pal_default (42, 0)).2).1
        ++ draw_eyes 512 1 pal_default "confident"
        ++ draw_mouth 512 pal_default "confident"
        ++ accessory_ops 512 (some ["earrings"]) pal_default) :=
  ⟨by decide,
   generate_avatar_layer_order env0 512 "portrait" "#8b5cf6" "#f59e0b" "confident"
     "summer" 2 1 (some ["earrings"]) 42 (0, 0) pal_default (by decide)⟩

/-- C4 (counterexample): for mood `creative` the selected point list has
exactly 4 points, yet `draw_mouth` paints a single stroked polyline
(`draw.line`, width 2), not a filled polygon. -/
theorem draw_mouth_creative_not_polygon :
    (mouth_points 512 "creative").length = 4 ∧
    (draw_mouth 512 pal_default "creative").map isFilledPolygon = [false] :=
  ⟨by decide, by decide⟩

/-- C4 (amended): for every mood string the looked-up point list has 2, 3 or
4 points (an unrecognized mood uses the `confident` list); 2 points are
rendered as a stroked straight line of width 3, 3 points as a filled
polygon, and 4 points as a stroked polyline of width 2 — not as a filled
polygon. -/
theorem draw_mouth_shape (size : ℤ) (colors : Pal) (mood : String) :
    ((mouth_points size mood).length = 2 ∨ (mouth_points size mood).length = 3
      ∨ (mouth_points size mood).length = 4)
    ∧ ((mouth_points size mood).length = 2 →
        draw_mouth size colors mood =
          [DrawOp.line (mouth_points size mood) (rgbFill (palGet colors "accent")) 3])
    ∧ ((mouth_points size mood).length = 3 →
        draw_mouth size colors mood =
          [DrawOp.polygon (mouth_points size mood) (rgbFill (palGet colors "accent"))])
    ∧ ((mouth_points size mood).length = 4 →
        draw_mouth size colors mood =
          [DrawOp.line (mouth_points size mood) (rgbFill (palGet colors "accent")) 2])
    ∧ ((mood_mouths (Int.fdiv size 2) ((Int.fdiv size 2 : ℚ) * 1.2)).lookup mood
          = Option.none →
        mouth_points size mood = mouth_points size "confident") := by
  have hlen : (mouth_points size mood).length = 2 ∨ (mouth_points size mood).length = 3
      ∨ (mouth_points size mood).length = 4 := by
    unfold mouth_points
    dsimp only
    cases hl : (mood_mouths (Int.fdiv size 2) ((Int.fdiv size 2 : ℚ) * 1.2)).lookup mood with
    | none => simp [mood_mouths, List.lookup]
    | some v =>
      have hv := lookup_mem hl
      simp only [mood_mouths, List.map, List.mem_cons, List.not_mem_nil, or_false] at hv
      rcases hv with h | h | h | h | h <;> subst h <;> simp
  refine ⟨hlen, ?_, ?_, ?_, ?_⟩
  · intro h2
    unfold draw_mouth
    dsimp only
    rw [if_pos h2]
  · intro h3
    unfold draw_mouth
    dsimp only
    rw [if_neg (by omega), if_pos h3]
  · intro h4
    unfold draw_mouth
    dsimp only
    rw [if_neg (by omega), if_neg (by omega)]
  · intro hnone
    unfold mouth_points
    dsimp only
    rw [hnone]
    rfl

/-- Witness for C4 (amended) at mood `confident` (3 points ⇒ polygon). -/
theorem draw_mouth_shape_witness :
    (mouth_points 512 "confident").length = 3 ∧
    draw_mouth 512 pal_default "confident" =
      [DrawOp.polygon (mouth_points 512 "confident")
        (rgbFill (palGet pal_default "accent"))] :=
  ⟨by decide, (draw_mouth_shape 512 pal_default "confident").2.2.1 (by decide)⟩

/-- C6 (counterexample): a configuration that includes the recognized key
`size` makes `generate_icon_set` raise a `TypeError` (the call passes
`size=512` and also forwards the filtered config), so no mapping is
returned at all. -/
theorem generate_icon_set_rejects_size :
    generate_icon_set env0 [("size", ConfigVal.i 512)] (0, 0) =
      Except.error "TypeError: generate_procedural_avatar got multiple values for keyword argument size" := by
  rfl

/-- C6 (amended): for every configuration that does not contain the key
`size` (and whose colors parse, so the base render succeeds), the result
maps exactly the 6 sizes 48, 72, 96, 144, 192, 512 in order; the 512 entry
is the single base render unchanged and every other entry is one LANCZOS
resize taken directly from that base. -/
theorem generate_icon_set_structure (env : PyEnv) (config : List (String × ConfigVal))
    (g : RNG) (hsize : ∀ kv ∈ config, ¬kv.1 = "size") (base : Img) (g2 : RNG)
    (hbase : generate_procedural_avatar env 512
        (getS (filterCfg config) "style" "portrait")
        (getS (filterCfg config) "primary_color" "#8b5cf6")
        (getS (filterCfg config) "secondary_color" "#f59e0b")
        (getS (filterCfg config) "mood" "confident")
        (getS (filterCfg config) "season" "summer")
        (getI (filterCfg config) "hair_style" 2)
        (getI (filterCfg config) "eye_style" 1)
        (getAcc (filterCfg config) "accessories")
        (getI (filterCfg config) "seed" 42) g = some (base, g2)) :
    generate_icon_set env config g = Except.ok
      [(48, Img.resize 48 48 Resample.lanczos base),
       (72, Img.resize 72 72 Resample.lanczos base),
       (96, Img.resize 96 96 Resample.lanczos base),
       (144, Img.resize 144 144 Resample.lanczos base),
       (192, Img.resize 192 192 Resample.lanczos base),
       (512, base)] := by
  have hguard : (filterCfg config).any (fun kv => kv.1 == "size") = false := by
    rw [List.any_eq_false]
    intro kv hkv
    simpa using hsize kv (List.mem_of_mem_filter hkv)
  unfold generate_icon_set
  dsimp only
  rw [hguard]
  simp only [Bool.false_eq_true, if_false]
  rw [hbase]
  simp [ICON_SIZES]

/-- Witness for C6 (amended) at the empty configuration. -/
theorem generate_icon_set_structure_witness :
    ∃ base g2, generate_procedural_avatar env0 512 "portrait" "#8b5cf6" "#f59e0b"
        "confident" "summer" 2 1 Option.none 42 (0, 0) = some (base, g2) ∧
      generate_icon_set env0 [] (0, 0) = Except.ok
        [(48, Img.resize 48 48 Resample.lanczos base),
         (72, Img.resize 72 72 Resample.lanczos base),
         (96, Img.resize 96 96 Resample.lanczos base),
         (144, Img.resize 144 144 Resample.lanczos base),
         (192, Img.resize 192 192 Resample.lanczos base),
         (512, base)] := by
  have h : (generate_procedural_avatar env0 512 "portrait" "#8b5cf6" "#f59e0b"
      "confident" "summer" 2 1 Option.none 42 (0, 0)).isSome = true := by decide
  obtain ⟨p, hp⟩ := Option.isSome_iff_exists.mp h
  refine ⟨p.1, p.2, by exact hp, ?_⟩
  exact generate_icon_set_structure env0 [] (0, 0) (by simp) p.1 p.2 (by exact hp)

/-- C7: the claim matches the code's own whitelist (which declares `size` a
recognized option) and the spec, but the call site passes `size=512` and
forwards the filtered config as keyword arguments, so any configuration
supplying `size` — even with the valid default value — raises a `TypeError`
instead of succeeding. -/
theorem generate_icon_set_size_config_raises :
    generate_icon_set env0 [("size", ConfigVal.i 256), ("style", ConfigVal.s "portrait")]
        (0, 0) =
      Except.error "TypeError: generate_procedural_avatar got multiple values for keyword argument size" := by
  rfl

end

end IconGen
